import Mathlib

/-!
Shallow embedding of the voice turn-taking code of this repository:
`src/components/ChatInterface.tsx` (speech-recognition path, speech
synthesis, `/chat` round trips) and `src/components/ChatAvatar.tsx`
(MediaRecorder path, `/voice` round trips, AudioContext playback).

React state is modelled as explicit records; browser callbacks
(recognition onresult/onerror/onend, synthesis onend/onerror, recorder
onstop, the 4-second auto-stop timer, fetch resolution) become step
functions on those records, translated handler by handler from the
source. Fetches in flight are kept in an explicit pending list, in
dispatch order; resolving the entry at index `i` runs the awaited
continuation of the call that dispatched it, so out-of-order network
completion is resolving a non-final index. Collapsing conventions,
noted again at each definition: a React state setter is an immediate
field update; `recorder.stop()` runs its `onstop` handler within the
same step; a closure reads the current state value where the source
closure would capture a render-time value — except for the one read
where the two observably differ: the `isVoiceMode` tested by the
`processMessage` continuation after its await is the value captured when
the request was dispatched, so each pending entry stores that captured
flag and `resolveFetch` tests it, not the current state.
-/

/-- One chat bubble of `ChatInterface`: `content` and `isUser`
(the `id` and `timestamp` fields play no role in any handler logic and
are dropped). -/
structure Message where
  content : String
  isUser : Bool
  deriving DecidableEq

/-- Outcome of the `/chat` fetch inside `getLLMResponse`
(ChatInterface.tsx:104-117): the promise chain either yields the JSON
field `assistant` (a string, possibly empty — JS treats an empty string
as falsy) or rejects somewhere (network failure, timeout, malformed
body). -/
inductive FetchOutcome where
  | ok (assistant : String)
  | netFail
  deriving DecidableEq

/-- The body of the `try` block of `getLLMResponse`: `fetch` followed by
`res.json()`; a rejection anywhere in the chain is `Except.error`. -/
def fetchChat : FetchOutcome → Except Unit String
  | .ok a => .ok a
  | .netFail => .error ()

/-- `getLLMResponse` (ChatInterface.tsx:104-117). It awaits `fetchChat`
and returns `data.assistant` with the falsy-fallback
`"No response from server."`; its own `catch` turns every rejection into
the string `"Sorry, server is unreachable."`. The function therefore
never throws: it never produces `Except.error`. -/
def getLLMResponseE (o : FetchOutcome) : Except Unit String :=
  match fetchChat o with
  | .ok a => .ok (if a = "" then "No response from server." else a)
  | .error _ => .ok "Sorry, server is unreachable."

/-- The string `getLLMResponseE` resolves to for a given outcome. -/
def llmText (o : FetchOutcome) : String :=
  match o with
  | .ok a => if a = "" then "No response from server." else a
  | .netFail => "Sorry, server is unreachable."

/-- The JS test `text.trim()` used by the source is always a truthiness
check: it holds exactly when the text has a non-whitespace character.
`blankStr t` is that test negated — every character of `t` is
whitespace. -/
def blankStr (t : String) : Bool :=
  t.data.all Char.isWhitespace

/-- React state of `ChatInterface` plus the browser resources its
handlers act on. `recognitionRunning`: the recognition engine is started
(capture device open); `synthSpeaking`: speech synthesis is playing;
`synthRefSet`: `speechSynthesisRef.current` is non-null; `supported`:
`recognitionRef.current` was installed (browser supports recognition);
`pending`: the `/chat` fetches in flight, in dispatch order — each entry
pairs the user text with the `isVoiceMode` value the dispatching
`processMessage` closure captured; the code itself attaches no request
identifier, so the list position is the only notion of request order;
`infoToasts` / `errorToasts` count the toast notifications emitted,
split by variant. -/
structure IState where
  messages : List Message
  inputValue : String
  isVoiceMode : Bool
  isListening : Bool
  isSpeaking : Bool
  recognitionActive : Bool
  recognitionRunning : Bool
  synthSpeaking : Bool
  synthRefSet : Bool
  supported : Bool
  pending : List (String × Bool)
  infoToasts : Nat
  errorToasts : Nat
  deriving DecidableEq

/-- `speakText` (ChatInterface.tsx:120-144): cancel any ongoing
synthesis, build an utterance, store it in `speechSynthesisRef` and
speak it; the `onstart` callback setting `isSpeaking` is collapsed into
this step. -/
def speakText (s : IState) : IState :=
  { s with synthRefSet := true, synthSpeaking := true, isSpeaking := true }

/-- The synchronous prefix of `processMessage`
(ChatInterface.tsx:147-158): return on a whitespace-only text, else
append the user message, clear the input and dispatch the `/chat`
fetch. The dispatched entry records the `isVoiceMode` value the closure
captured at this point: the continuation after the await will test this
stale value, not the state at resolution time. -/
def processMessageStart (s : IState) (t : String) : IState :=
  if blankStr t then s
  else
    { s with
      messages := s.messages ++ [{ content := t, isUser := true }]
      inputValue := ""
      pending := s.pending ++ [(t, s.isVoiceMode)] }

/-- The awaited continuation of `processMessage`
(ChatInterface.tsx:159-178), run when the fetch at position `i` of
`pending` resolves with outcome `o`: append the assistant message and,
when the `isVoiceMode` value captured at dispatch — the second component
of the pending entry, a stale closure value, not the current state — is
true, speak it. The `catch` branch emits one destructive toast, but is
reachable only when `getLLMResponseE` yields an error. -/
def resolveFetch (s : IState) (i : Nat) (o : FetchOutcome) : IState :=
  if h : i < s.pending.length then
    let capturedVoice := (s.pending.get ⟨i, h⟩).2
    let s0 := { s with pending := s.pending.eraseIdx i }
    match getLLMResponseE o with
    | .ok aiText =>
      let s1 := { s0 with
        messages := s0.messages ++ [{ content := aiText, isUser := false }] }
      if capturedVoice then speakText s1 else s1
    | .error _ => { s0 with errorToasts := s0.errorToasts + 1 }
  else s

/-- `recognition.onresult` (ChatInterface.tsx:57-67): when the
transcript trims to non-empty, toast "Voice Input Detected" and run
`processMessage` on it; a whitespace-only transcript is ignored. -/
def recOnResult (s : IState) (t : String) : IState :=
  if blankStr t then s
  else processMessageStart { s with infoToasts := s.infoToasts + 1 } t

/-- `recognition.onerror` (ChatInterface.tsx:69-78): clear the listening
flags and emit one destructive toast; the engine has stopped. -/
def recOnError (s : IState) : IState :=
  { s with isListening := false, recognitionActive := false,
           recognitionRunning := false, errorToasts := s.errorToasts + 1 }

/-- `recognition.onend` (ChatInterface.tsx:80-88): the engine has
stopped; restart it (after the 100 ms delay) exactly when
`recognitionActive` and `isVoiceMode` still hold. -/
def recOnEnd (s : IState) : IState :=
  { s with recognitionRunning := s.recognitionActive && s.isVoiceMode }

/-- `utterance.onend` (ChatInterface.tsx:138): synthesis finished. -/
def synthEnd (s : IState) : IState :=
  { s with isSpeaking := false, synthSpeaking := false }

/-- `utterance.onerror` (ChatInterface.tsx:139): synthesis failed. -/
def synthError (s : IState) : IState :=
  { s with isSpeaking := false, synthSpeaking := false }

/-- `toggleVoiceMode` (ChatInterface.tsx:188-228). Enabling: with
recognition support, set the active/listening flags and start the
engine; when `recognition.start()` throws (`startThrows`), the catch
clears the two flags — and nothing else: `isVoiceMode` stays true and
only a console log happens. Without support, a destructive toast is
emitted and `isVoiceMode` is reverted. Disabling: clear the flags, stop
the engine, and — when an utterance ref exists — cancel synthesis and
clear `isSpeaking`; one info toast either way. -/
def toggleVoiceMode (s : IState) (startThrows : Bool) : IState :=
  let newMode := !s.isVoiceMode
  let s0 := { s with isVoiceMode := newMode }
  if newMode then
    if s0.supported then
      let s1 := { s0 with recognitionActive := true, isListening := true }
      if startThrows then
        { s1 with isListening := false, recognitionActive := false }
      else
        { s1 with recognitionRunning := true, infoToasts := s1.infoToasts + 1 }
    else
      { s0 with isVoiceMode := false, errorToasts := s0.errorToasts + 1 }
  else
    let s1 := { s0 with recognitionActive := false, isListening := false,
                        recognitionRunning := false }
    let s2 := if s1.synthRefSet then
                { s1 with synthSpeaking := false, isSpeaking := false }
              else s1
    { s2 with infoToasts := s2.infoToasts + 1 }

/-- One full `processMessage` call whose fetch resolves with outcome
`o`: the synchronous prefix followed by the resolution of the fetch it
dispatched (the last pending entry). -/
def processMessageRun (s : IState) (t : String) (o : FetchOutcome) : IState :=
  let s1 := processMessageStart s t
  if blankStr t then s1
  else resolveFetch s1 (s1.pending.length - 1) o

/-- Start state of `ChatInterface`: voice mode off, nothing listening or
speaking, no fetch in flight, no toast emitted. The source seeds
`messages` with one greeting bubble whose exact text plays no role in
any handler; a placeholder content stands for it here. `supported` is
true: the browser installed `recognitionRef.current`. -/
def initIState : IState :=
  { messages := [{ content := "greeting", isUser := false }]
    inputValue := ""
    isVoiceMode := false
    isListening := false
    isSpeaking := false
    recognitionActive := false
    recognitionRunning := false
    synthSpeaking := false
    synthRefSet := false
    supported := true
    pending := []
    infoToasts := 0
    errorToasts := 0 }

/-- React state of `ChatAvatar` plus the recorder, stream and playback
resources its handlers act on. `chunks` models `audioChunksRef`, each
chunk abstracted to its size; `pendingVoice`: blobs of `/voice` fetches
in flight, in dispatch order; `voiceSent` counts round trips dispatched
to `/voice`; `recordingsEmitted` counts the terminal blobs built by
`recorder.onstop`; `recorderActive`: `recorder.state` is not inactive;
`streamOpen`: the `getUserMedia` tracks are live; `playbackActive`: an
`AudioBufferSourceNode` is playing a reply. -/
structure AState where
  isVoiceMode : Bool
  isListening : Bool
  isSpeaking : Bool
  recorderActive : Bool
  streamOpen : Bool
  chunks : List Nat
  pendingVoice : List (List Nat)
  voiceSent : Nat
  recordingsEmitted : Nat
  playbackActive : Bool
  deriving DecidableEq

/-- The microphone acquisition and recorder setup of `startVoice`
(ChatAvatar.tsx:76-110): on `getUserMedia` success the stream is stored,
a fresh recorder is created and started with an empty chunk list and
`isListening` is set; on failure only a console log happens and no state
changes. -/
def startVoiceBody (micOk : Bool) (s : AState) : AState :=
  if micOk then
    { s with streamOpen := true, recorderActive := true, chunks := [],
             isListening := true }
  else s

/-- `recorder.ondataavailable` (ChatAvatar.tsx:89): push one chunk. -/
def dataAvailable (s : AState) (c : Nat) : AState :=
  if s.recorderActive then { s with chunks := s.chunks ++ [c] } else s

/-- `recorder.stop()` together with the synchronous part of its `onstop`
handler (ChatAvatar.tsx:91-98): when the recorder is active it becomes
inactive, `isListening` clears, the blob is built from the gathered
chunks — this is the terminal Recording of the capture session, counted
by `recordingsEmitted` — and `sendVoiceToAI` posts it to `/voice`
unconditionally: there is no emptiness check before the dispatch. The
awaited continuation (the continuous-mode restart) runs later, in
`resolveVoice`. -/
def avatarRecorderStop (s : AState) : AState :=
  if s.recorderActive then
    { s with recorderActive := false, isListening := false,
             recordingsEmitted := s.recordingsEmitted + 1,
             pendingVoice := s.pendingVoice ++ [s.chunks],
             voiceSent := s.voiceSent + 1,
             chunks := [] }
  else s

/-- The 4000 ms auto-stop timeout armed by `startVoice`
(ChatAvatar.tsx:103-106): stop the recorder when its state is not
inactive, which runs `onstop`; otherwise do nothing. -/
def timerFire (s : AState) : AState :=
  avatarRecorderStop s

/-- `stopVoice` (ChatAvatar.tsx:113-120): stop the recorder (running its
`onstop` handler), clear `isListening`, and stop and drop the stream
tracks. Nothing here touches the playback source. -/
def stopVoiceStep (s : AState) : AState :=
  let s1 := avatarRecorderStop s
  { s1 with isListening := false, streamOpen := false }

/-- Outcome of one `/voice` round trip as seen by `sendVoiceToAI` and
`playAudio` (ChatAvatar.tsx:36-73): a reply with playable audio, a reply
whose audio fails to decode, a reply without `audio_base64`, or a
rejected fetch. -/
inductive VoiceOutcome where
  | audioOk
  | audioDecodeFail
  | noAudio
  | fetchFail
  deriving DecidableEq

/-- Net effect of the response handling of `sendVoiceToAI` for one
outcome: `playAudio` sets `isSpeaking` and starts the source on a
successful decode, and its `catch` clears `isSpeaking` on a decode
error; the `catch` of `sendVoiceToAI` clears `isSpeaking` on a rejected
fetch; a reply without audio changes nothing. -/
def applyVoiceOutcome (o : VoiceOutcome) (s : AState) : AState :=
  match o with
  | .audioOk => { s with isSpeaking := true, playbackActive := true }
  | .audioDecodeFail => { s with isSpeaking := false }
  | .noAudio => s
  | .fetchFail => { s with isSpeaking := false }

/-- Resolution of the `/voice` fetch at position `i` of `pendingVoice`:
the awaited tail of `recorder.onstop` (ChatAvatar.tsx:91-98). Apply the
response handling, then — `sendVoiceToAI` having returned, whether
normally or through its `catch` — restart capture when voice mode is
still on (`micOk` is the outcome of the restarted `getUserMedia`).
`playAudio` returns right after `source.start(0)`, so the restart does
not wait for playback to finish. -/
def resolveVoice (s : AState) (i : Nat) (o : VoiceOutcome) (micOk : Bool) :
    AState :=
  if i < s.pendingVoice.length then
    let s1 := applyVoiceOutcome o
      { s with pendingVoice := s.pendingVoice.eraseIdx i }
    if s1.isVoiceMode then startVoiceBody micOk s1 else s1
  else s

/-- `source.onended` (ChatAvatar.tsx:51): playback finished. -/
def playbackEnded (s : AState) : AState :=
  { s with isSpeaking := false, playbackActive := false }

/-- The `isVoiceMode` effect of `ChatAvatar` (ChatAvatar.tsx:123-128):
on the flag becoming true run `startVoice`, on it becoming false run
`stopVoice`. -/
def avatarSetVoiceMode (b : Bool) (micOk : Bool) (s : AState) : AState :=
  let s0 := { s with isVoiceMode := b }
  if b then startVoiceBody micOk s0 else stopVoiceStep s0

/-- Start state of `ChatAvatar`: voice mode off, no resource open, no
round trip in flight. -/
def initAState : AState :=
  { isVoiceMode := false, isListening := false, isSpeaking := false,
    recorderActive := false, streamOpen := false, chunks := [],
    pendingVoice := [], voiceSent := 0, recordingsEmitted := 0,
    playbackActive := false }

/-- Trace: voice mode enabled through `toggleVoiceMode`, recognition
started without a throw. -/
def ifaceOn : IState := toggleVoiceMode initIState false

/-- Trace: a non-empty transcript arrives; `processMessage` appends the
user message and dispatches the `/chat` fetch. -/
def ifaceAsked : IState := recOnResult ifaceOn ("hello")

/-- Trace: the fetch resolves while voice mode is on; `speakText`
starts synthesis while recognition keeps running. -/
def ifaceReplied : IState := resolveFetch ifaceAsked 0 (.ok "hi there")

/-- Trace: voice mode disabled while the fetch of `ifaceAsked` is still
in flight. -/
def ifaceOffPending : IState := toggleVoiceMode ifaceAsked false

/-- Trace: the abandoned fetch resolves after the disable. -/
def ifaceLate : IState := resolveFetch ifaceOffPending 0 (.ok "late reply")

/-- Trace: a second transcript is dispatched while the first fetch is
still in flight — two round trips outstanding, positions 0 and 1. -/
def ifaceTwo : IState := recOnResult ifaceAsked ("second question")

/-- Trace: the newer round trip (position 1) resolves first. -/
def ifaceNewerFirst : IState := resolveFetch ifaceTwo 1 (.ok "reply to second")

/-- Trace: the older round trip (position 0) resolves afterwards —
out-of-order completion. -/
def ifaceStaleApplied : IState :=
  resolveFetch ifaceNewerFirst 0 (.ok "reply to first")

/-- Trace: `toggleVoiceMode` enabling voice mode when
`recognition.start()` throws. -/
def ifaceStartThrew : IState := toggleVoiceMode initIState true

/-- Trace: the fetch of `ifaceAsked` fails (network error). -/
def ifaceFailed : IState := resolveFetch ifaceAsked 0 .netFail

/-- Trace: avatar voice mode enabled, `getUserMedia` succeeds; recorder
running with an empty chunk list. -/
def avatarOn : AState := avatarSetVoiceMode true true initAState

/-- Trace: the 4-second auto-stop fires with zero chunks gathered; the
empty blob is dispatched to `/voice`. -/
def avatarStopped : AState := timerFire avatarOn

/-- Trace: the `/voice` reply carries audio; playback starts and the
continuous-mode restart reopens the recorder while it plays. -/
def avatarPlaying : AState := resolveVoice avatarStopped 0 .audioOk true

/-- Trace: voice mode disabled while the reply audio is playing. -/
def avatarOffWhilePlaying : AState :=
  avatarSetVoiceMode false true avatarPlaying

/-- Trace: voice mode disabled while the `/voice` fetch of
`avatarStopped` is still in flight. -/
def avatarOffPending : AState := avatarSetVoiceMode false true avatarStopped

/-- Trace: the abandoned `/voice` fetch resolves with audio after the
disable. -/
def avatarLate : AState := resolveVoice avatarOffPending 0 .audioOk true

theorem getLLMResponseE_eq_ok (o : FetchOutcome) :
    getLLMResponseE o = Except.ok (llmText o) := by
  cases o <;> rfl

/-- C1 counterexample: the mutual-exclusion invariant fails on a
concrete reachable run. Interface path: enable voice mode, a transcript
dispatches a round trip, the reply resolves — synthesis is playing while
the recognition engine (the open capture device) is still running.
Avatar path: enable voice mode, the auto-stop dispatches the recording,
the reply with audio resolves — playback is active while the
continuous-mode restart has reopened the recorder and stream. -/
theorem C1_counterexample :
    (ifaceReplied.recognitionRunning = true ∧
      ifaceReplied.synthSpeaking = true) ∧
    (avatarPlaying.recorderActive = true ∧
      avatarPlaying.streamOpen = true ∧
      avatarPlaying.playbackActive = true) := by
  decide

/-- C1 amended: capture and playback are not mutually exclusive. A reply
resolving in voice mode starts synthesis without stopping the
recognition engine, and the avatar reply starts playback and then
reopens the recorder while the audio is still playing. What the code
does guarantee: the recorder is stopped (and its terminal blob built)
before its own round trip is dispatched, so a reply never overlaps the
capture of the utterance that produced it. -/
theorem C1_amended_theorem (s : IState) (i : Nat) (o : FetchOutcome)
    (h1 : s.isVoiceMode = true) (h2 : i < s.pending.length)
    (hc : (s.pending.get ⟨i, h2⟩).2 = true)
    (a : AState) (j : Nat)
    (ha : a.isVoiceMode = true) (hj : j < a.pendingVoice.length) :
    ((resolveFetch s i o).recognitionRunning = s.recognitionRunning ∧
      (resolveFetch s i o).synthSpeaking = true) ∧
    ((resolveVoice a j .audioOk true).playbackActive = true ∧
      (resolveVoice a j .audioOk true).recorderActive = true) ∧
    (∀ b : AState, (avatarRecorderStop b).recorderActive = false) := by
  simp only [List.get_eq_getElem] at hc
  refine ⟨⟨?_, ?_⟩, ⟨?_, ?_⟩, ?_⟩
  · simp [resolveFetch, getLLMResponseE_eq_ok, h2, hc, speakText]
  · simp [resolveFetch, getLLMResponseE_eq_ok, h2, hc, speakText]
  · simp [resolveVoice, applyVoiceOutcome, startVoiceBody, ha, hj]
  · simp [resolveVoice, applyVoiceOutcome, startVoiceBody, ha, hj]
  · intro b
    by_cases hb : b.recorderActive <;> simp [avatarRecorderStop, hb]

/-- C1 witness: the amended statement evaluated on the concrete
reachable states of the counterexample traces. -/
theorem C1_amended_witness :
    ((resolveFetch ifaceAsked 0 (.ok "hi there")).recognitionRunning =
        ifaceAsked.recognitionRunning ∧
      (resolveFetch ifaceAsked 0 (.ok "hi there")).synthSpeaking = true) ∧
    ((resolveVoice avatarStopped 0 .audioOk true).playbackActive = true ∧
      (resolveVoice avatarStopped 0 .audioOk true).recorderActive = true) ∧
    (∀ b : AState, (avatarRecorderStop b).recorderActive = false) :=
  C1_amended_theorem ifaceAsked 0 (.ok "hi there") (by decide) (by decide)
    (by decide) avatarStopped 0 (by decide) (by decide)

/-- C2 counterexample: on a concrete run, a round-trip response arriving
after the disabling toggle is not discarded. Interface path: the
assistant message is still appended to the history, and — the
continuation testing the voice-mode value captured at dispatch, which
was true — speech synthesis is started for the late reply even though
voice mode is off. Avatar path: before the late resolution nothing is
playing; the late resolution starts playback. -/
theorem C2_counterexample :
    ifaceLate.messages.length = ifaceOffPending.messages.length + 1 ∧
    ifaceOffPending.synthSpeaking = false ∧
    ifaceLate.synthSpeaking = true ∧
    ifaceLate.isVoiceMode = false ∧
    avatarOffPending.playbackActive = false ∧
    avatarLate.playbackActive = true := by
  decide

/-- C2 amended: a round-trip response arriving after the disabling
toggle is not discarded. In the interface path the assistant message is
still appended to the conversation history, and the late reply is even
spoken aloud: the continuation tests the `isVoiceMode` value its closure
captured when the request was dispatched (true), not the current state.
In the avatar path a late reply carrying audio starts playback
unconditionally — the code performs no staleness check at all. -/
theorem C2_amended_theorem (s : IState) (i : Nat) (o : FetchOutcome)
    (h1 : s.isVoiceMode = false) (h2 : i < s.pending.length)
    (hc : (s.pending.get ⟨i, h2⟩).2 = true)
    (a : AState) (j : Nat)
    (ha : a.isVoiceMode = false) (hj : j < a.pendingVoice.length) :
    (resolveFetch s i o).messages =
      s.messages ++ [{ content := llmText o, isUser := false }] ∧
    (resolveFetch s i o).synthSpeaking = true ∧
    (resolveFetch s i o).isSpeaking = true ∧
    (resolveVoice a j .audioOk true).playbackActive = true := by
  simp only [List.get_eq_getElem] at hc
  refine ⟨?_, ?_, ?_, ?_⟩
  · simp [resolveFetch, getLLMResponseE_eq_ok, h2, hc, speakText]
  · simp [resolveFetch, getLLMResponseE_eq_ok, h2, hc, speakText]
  · simp [resolveFetch, getLLMResponseE_eq_ok, h2, hc, speakText]
  · simp [resolveVoice, applyVoiceOutcome, startVoiceBody, ha, hj]

/-- C2 witness: the amended statement evaluated on the concrete
disable-then-resolve traces. -/
theorem C2_amended_witness :
    (resolveFetch ifaceOffPending 0 (.ok "late reply")).messages =
      ifaceOffPending.messages ++
        [{ content := llmText (.ok "late reply"), isUser := false }] ∧
    (resolveFetch ifaceOffPending 0 (.ok "late reply")).synthSpeaking =
      true ∧
    (resolveFetch ifaceOffPending 0 (.ok "late reply")).isSpeaking = true ∧
    (resolveVoice avatarOffPending 0 .audioOk true).playbackActive = true :=
  C2_amended_theorem ifaceOffPending 0 (.ok "late reply") (by decide)
    (by decide) (by decide) avatarOffPending 0 (by decide) (by decide)

/-- C3 counterexample: two round trips are dispatched (positions 0 and
1, position 1 the newer); the newer resolves first, then the older —
and the older result is still applied: the history grows again and its
last entry is the reply to the superseded older request. -/
theorem C3_counterexample :
    ifaceStaleApplied.messages.length = ifaceNewerFirst.messages.length + 1 ∧
    ifaceStaleApplied.messages.getLast? =
      some { content := "reply to first", isUser := false } := by
  decide

/-- C3 amended: the code attaches no request identifier to its round
trips and performs no staleness check: whichever pending call resolves —
at any position, dispatched before or after others — its result is
applied, appending the assistant message to the history; no resolution
is ever discarded. -/
theorem C3_amended_theorem (s : IState) (i : Nat) (o : FetchOutcome)
    (h : i < s.pending.length) :
    (resolveFetch s i o).messages =
      s.messages ++ [{ content := llmText o, isUser := false }] ∧
    (resolveFetch s i o).pending = s.pending.eraseIdx i := by
  constructor
  · by_cases hv : (s.pending[i]).2 = true <;>
      simp [resolveFetch, getLLMResponseE_eq_ok, h, hv, speakText]
  · by_cases hv : (s.pending[i]).2 = true <;>
      simp [resolveFetch, getLLMResponseE_eq_ok, h, hv, speakText]

/-- C3 witness: the amended statement evaluated at the stale resolution
of the concrete out-of-order trace. -/
theorem C3_amended_witness :
    (resolveFetch ifaceNewerFirst 0 (.ok "reply to first")).messages =
      ifaceNewerFirst.messages ++
        [{ content := llmText (.ok "reply to first"), isUser := false }] ∧
    (resolveFetch ifaceNewerFirst 0 (.ok "reply to first")).pending =
      ifaceNewerFirst.pending.eraseIdx 0 :=
  C3_amended_theorem ifaceNewerFirst 0 (.ok "reply to first") (by decide)

/-- C4 counterexample: on a concrete run where the avatar reply audio is
playing, the disabling toggle leaves the playback running and the
speaking flag set — the conversation is not returned to an idle state
with playback halted. -/
theorem C4_counterexample :
    avatarOffWhilePlaying.playbackActive = true ∧
    avatarOffWhilePlaying.isSpeaking = true ∧
    avatarOffWhilePlaying.isVoiceMode = false := by
  decide

/-- C4 amended: disabling voice mode closes the capture resources — the
recognition engine is stopped and its flags cleared, the recorder is
stopped and the stream tracks dropped — and cancels speech synthesis
when an utterance ref exists; but it does not halt AudioContext playback
of a reply in the avatar path: that playback (and its speaking flag)
continues untouched until its own completion event. -/
theorem C4_amended_theorem (s : IState) (b : Bool) (a : AState) (m : Bool)
    (h : s.isVoiceMode = true) (hr : s.synthRefSet = true) :
    ((toggleVoiceMode s b).isVoiceMode = false ∧
      (toggleVoiceMode s b).recognitionRunning = false ∧
      (toggleVoiceMode s b).recognitionActive = false ∧
      (toggleVoiceMode s b).isListening = false ∧
      (toggleVoiceMode s b).synthSpeaking = false ∧
      (toggleVoiceMode s b).isSpeaking = false) ∧
    ((avatarSetVoiceMode false m a).recorderActive = false ∧
      (avatarSetVoiceMode false m a).streamOpen = false ∧
      (avatarSetVoiceMode false m a).playbackActive = a.playbackActive ∧
      (avatarSetVoiceMode false m a).isSpeaking = a.isSpeaking) := by
  constructor
  · simp [toggleVoiceMode, h, hr]
  · by_cases hc : a.recorderActive <;>
      simp [avatarSetVoiceMode, stopVoiceStep, avatarRecorderStop, hc]

/-- C4 witness: the amended statement evaluated at the concrete states
of the counterexample trace — the speaking interface state and the
playing avatar state. -/
theorem C4_amended_witness :
    ((toggleVoiceMode ifaceReplied false).isVoiceMode = false ∧
      (toggleVoiceMode ifaceReplied false).recognitionRunning = false ∧
      (toggleVoiceMode ifaceReplied false).recognitionActive = false ∧
      (toggleVoiceMode ifaceReplied false).isListening = false ∧
      (toggleVoiceMode ifaceReplied false).synthSpeaking = false ∧
      (toggleVoiceMode ifaceReplied false).isSpeaking = false) ∧
    ((avatarSetVoiceMode false true avatarPlaying).recorderActive = false ∧
      (avatarSetVoiceMode false true avatarPlaying).streamOpen = false ∧
      (avatarSetVoiceMode false true avatarPlaying).playbackActive =
        avatarPlaying.playbackActive ∧
      (avatarSetVoiceMode false true avatarPlaying).isSpeaking =
        avatarPlaying.isSpeaking) :=
  C4_amended_theorem ifaceReplied false avatarPlaying true (by decide)
    (by decide)

/-- C5 counterexample: on the concrete enable where
`recognition.start()` throws, voice mode remains enabled (`isVoiceMode`
is left true, not reverted to the disabled state) and no error toast is
emitted — the failure is not surfaced to the user. -/
theorem C5_counterexample :
    ifaceStartThrew.isVoiceMode = true ∧
    ifaceStartThrew.errorToasts = 0 ∧
    ifaceStartThrew.infoToasts = 0 ∧
    ifaceStartThrew.recognitionRunning = false := by
  decide

/-- C5 amended: when enabling voice mode and `recognition.start()`
throws, the catch clears the listening and active flags and starts no
engine, but `isVoiceMode` stays true (voice mode is not reverted) and no
toast of either kind is emitted — the error reaches only the console.
The behaviour the claim describes — revert plus a surfaced error —
happens only in the unsupported-browser branch. -/
theorem C5_amended_theorem (s u : IState)
    (h0 : s.isVoiceMode = false) (h1 : s.supported = true)
    (h2 : u.isVoiceMode = false) (h3 : u.supported = false) :
    ((toggleVoiceMode s true).isVoiceMode = true ∧
      (toggleVoiceMode s true).recognitionActive = false ∧
      (toggleVoiceMode s true).isListening = false ∧
      (toggleVoiceMode s true).recognitionRunning = s.recognitionRunning ∧
      (toggleVoiceMode s true).errorToasts = s.errorToasts ∧
      (toggleVoiceMode s true).infoToasts = s.infoToasts) ∧
    ((toggleVoiceMode u true).isVoiceMode = false ∧
      (toggleVoiceMode u true).errorToasts = u.errorToasts + 1) := by
  constructor
  · simp [toggleVoiceMode, h0, h1]
  · simp [toggleVoiceMode, h2, h3]

/-- C5 witness: the amended statement evaluated at the initial interface
state and at the same state in an unsupported browser. -/
theorem C5_amended_witness :
    ((toggleVoiceMode initIState true).isVoiceMode = true ∧
      (toggleVoiceMode initIState true).recognitionActive = false ∧
      (toggleVoiceMode initIState true).isListening = false ∧
      (toggleVoiceMode initIState true).recognitionRunning =
        initIState.recognitionRunning ∧
      (toggleVoiceMode initIState true).errorToasts =
        initIState.errorToasts ∧
      (toggleVoiceMode initIState true).infoToasts =
        initIState.infoToasts) ∧
    ((toggleVoiceMode { initIState with supported := false } true).isVoiceMode
        = false ∧
      (toggleVoiceMode { initIState with supported := false } true).errorToasts
        = { initIState with supported := false }.errorToasts + 1) :=
  C5_amended_theorem initIState { initIState with supported := false }
    (by decide) (by decide) (by decide) (by decide)

/-- C6 counterexample: on the concrete run where the round trip fails,
an assistant message is appended to the history (the fallback text
"Sorry, server is unreachable." recorded as a normal exchange) and zero
error notifications are emitted — not zero exchanges and one error as
the claim states. Recognition does keep running. -/
theorem C6_counterexample :
    ifaceFailed.messages.length = ifaceAsked.messages.length + 1 ∧
    ifaceFailed.messages.getLast? =
      some { content := "Sorry, server is unreachable.", isUser := false } ∧
    ifaceFailed.errorToasts = 0 ∧
    ifaceFailed.recognitionRunning = true := by
  decide

/-- C6 amended: on a failed round trip the fallback text
"Sorry, server is unreachable." is appended to the history as a normal
assistant message — the user message and the fallback, two entries — and
no error notification is emitted; recognition is untouched, so in
continuous mode capture does keep running. -/
theorem C6_amended_theorem (s : IState) (t : String)
    (h : blankStr t = false) :
    (processMessageRun s t .netFail).messages =
      s.messages ++
        [{ content := t, isUser := true },
         { content := "Sorry, server is unreachable.", isUser := false }] ∧
    (processMessageRun s t .netFail).errorToasts = s.errorToasts ∧
    (processMessageRun s t .netFail).recognitionRunning =
      s.recognitionRunning := by
  refine ⟨?_, ?_, ?_⟩ <;>
    by_cases hv : s.isVoiceMode <;>
      simp [processMessageRun, processMessageStart, resolveFetch,
            getLLMResponseE_eq_ok, llmText, speakText, h, hv]

/-- C6 witness: the amended statement evaluated on the concrete failing
trace state. -/
theorem C6_amended_witness :
    (processMessageRun ifaceOn ("hello") .netFail).messages =
      ifaceOn.messages ++
        [{ content := "hello", isUser := true },
         { content := "Sorry, server is unreachable.", isUser := false }] ∧
    (processMessageRun ifaceOn ("hello") .netFail).errorToasts =
      ifaceOn.errorToasts ∧
    (processMessageRun ifaceOn ("hello") .netFail).recognitionRunning =
      ifaceOn.recognitionRunning :=
  C6_amended_theorem ifaceOn ("hello") (by decide)

/-- C7 counterexample: on the concrete run the recorder is opened and
auto-stopped with zero chunks gathered, and the empty blob is still
dispatched to the remote `/voice` capability — one round trip for a
capture with zero audio. -/
theorem C7_counterexample :
    avatarOn.chunks = [] ∧
    avatarStopped.voiceSent = 1 ∧
    avatarStopped.pendingVoice = [[]] := by
  decide

/-- C7 amended: in the recognition path a whitespace-only transcript
triggers no round trip and no state change at all (both the `onresult`
guard and the `processMessage` guard return). In the recorder path,
however, `onstop` dispatches the blob unconditionally: a capture that
gathered zero audio is still sent to the remote capability. -/
theorem C7_amended_theorem (s : IState) (t : String) (a : AState)
    (ht : blankStr t = true) (ha : a.recorderActive = true)
    (hc : a.chunks = []) :
    recOnResult s t = s ∧
    processMessageStart s t = s ∧
    (avatarRecorderStop a).voiceSent = a.voiceSent + 1 ∧
    (avatarRecorderStop a).pendingVoice = a.pendingVoice ++ [[]] := by
  refine ⟨?_, ?_, ?_, ?_⟩
  · simp [recOnResult, ht]
  · simp [processMessageStart, ht]
  · simp [avatarRecorderStop, ha]
  · simp [avatarRecorderStop, ha, hc]

/-- C7 witness: the amended statement evaluated on a whitespace
transcript and on the concrete freshly opened recorder state. -/
theorem C7_amended_witness :
    recOnResult initIState ("   ") = initIState ∧
    processMessageStart initIState ("   ") = initIState ∧
    (avatarRecorderStop avatarOn).voiceSent = avatarOn.voiceSent + 1 ∧
    (avatarRecorderStop avatarOn).pendingVoice =
      avatarOn.pendingVoice ++ [[]] :=
  C7_amended_theorem initIState ("   ") avatarOn (by decide) (by decide)
    (by decide)

/-- C8: a capture session is bounded by the 4000 ms auto-stop. When the
timer fires on an active recorder the capture is force-completed: the
recorder becomes inactive, exactly one terminal Recording (the gathered
chunks, possibly empty) is emitted and dispatched, and a second firing
changes nothing — a capture never hangs. -/
theorem C8_capture_bounded (s : AState) (h : s.recorderActive = true) :
    (timerFire s).recorderActive = false ∧
    (timerFire s).recordingsEmitted = s.recordingsEmitted + 1 ∧
    (timerFire s).pendingVoice = s.pendingVoice ++ [s.chunks] ∧
    timerFire (timerFire s) = timerFire s := by
  refine ⟨?_, ?_, ?_, ?_⟩ <;>
    simp [timerFire, avatarRecorderStop, h]

/-- C8 witness: the bound evaluated on the concrete freshly opened
recorder state. -/
theorem C8_capture_bounded_witness :
    (timerFire avatarOn).recorderActive = false ∧
    (timerFire avatarOn).recordingsEmitted =
      avatarOn.recordingsEmitted + 1 ∧
    (timerFire avatarOn).pendingVoice =
      avatarOn.pendingVoice ++ [avatarOn.chunks] ∧
    timerFire (timerFire avatarOn) = timerFire avatarOn :=
  C8_capture_bounded avatarOn (by decide)

/-- C9: a playback failure produces exactly the same state transition as
a normal completion. Interface path: the `onerror` handler equals the
`onend` handler as functions on the state. Avatar path: resolving a
reply whose audio fails to decode yields exactly the state of resolving
the same reply successfully and then receiving its completion event
(given no other playback was active). -/
theorem C9_playback_failure_eq_completion (s : IState) (a : AState)
    (j : Nat) (m : Bool)
    (hj : j < a.pendingVoice.length) (hp : a.playbackActive = false) :
    synthError s = synthEnd s ∧
    resolveVoice a j .audioDecodeFail m =
      playbackEnded (resolveVoice a j .audioOk m) := by
  constructor
  · rfl
  · obtain ⟨vm, lis, spk, rec, str, ch, pv, vs, re, pa⟩ := a
    simp only at hp
    subst hp
    by_cases hv : vm <;> by_cases hm : m <;>
      simp [resolveVoice, applyVoiceOutcome, startVoiceBody,
            playbackEnded, hj, hv, hm]

/-- C9 witness: the equality evaluated on the concrete state with one
`/voice` round trip in flight. -/
theorem C9_playback_failure_eq_completion_witness :
    synthError initIState = synthEnd initIState ∧
    resolveVoice avatarStopped 0 .audioDecodeFail true =
      playbackEnded (resolveVoice avatarStopped 0 .audioOk true) :=
  C9_playback_failure_eq_completion initIState avatarStopped 0 true
    (by decide) (by decide)

/-- C10: for a non-whitespace input, a full `processMessage` run appends
exactly two entries — the user message, then the assistant message — and
its catch branch is unreachable for every fetch outcome (no error toast
is ever emitted), because `getLLMResponseE` resolves to a plain string
on every outcome instead of throwing; for a whitespace-only input the
whole state, history included, is unchanged. -/
theorem C10_processMessage_shape (s : IState) (t u : String)
    (o : FetchOutcome) (ht : blankStr t = false) (hu : blankStr u = true) :
    (processMessageRun s t o).messages =
      s.messages ++
        [{ content := t, isUser := true },
         { content := llmText o, isUser := false }] ∧
    (processMessageRun s t o).errorToasts = s.errorToasts ∧
    getLLMResponseE o = Except.ok (llmText o) ∧
    processMessageRun s u o = s := by
  refine ⟨?_, ?_, getLLMResponseE_eq_ok o, ?_⟩
  · by_cases hv : s.isVoiceMode <;>
      simp [processMessageRun, processMessageStart, resolveFetch,
            getLLMResponseE_eq_ok, speakText, ht, hv]
  · by_cases hv : s.isVoiceMode <;>
      simp [processMessageRun, processMessageStart, resolveFetch,
            getLLMResponseE_eq_ok, speakText, ht, hv]
  · simp [processMessageRun, processMessageStart, hu]

/-- C10 witness: the statement evaluated at a concrete non-whitespace
input with a failing fetch, and a concrete whitespace input. -/
theorem C10_processMessage_shape_witness :
    (processMessageRun initIState ("hi") .netFail).messages =
      initIState.messages ++
        [{ content := "hi", isUser := true },
         { content := llmText .netFail, isUser := false }] ∧
    (processMessageRun initIState ("hi") .netFail).errorToasts =
      initIState.errorToasts ∧
    getLLMResponseE .netFail = Except.ok (llmText .netFail) ∧
    processMessageRun initIState (" ") .netFail = initIState :=
  C10_processMessage_shape initIState ("hi") (" ") .netFail (by decide)
    (by decide)
